import Mathlib

/-!
Shallow embedding of the campaign CRUD service in src/main.py.

The on-disk SQLite table is modelled as a list of rows together with the
next auto-assigned primary key; timestamps are abstracted as natural
numbers (instants), passed in explicitly wherever the code calls
datetime.now().  Each endpoint handler becomes a pure function from the
database state (and the request data) to a response together with the
resulting database state; raising HTTPException becomes returning
Except.error with the status code and detail of the exception.
-/

set_option autoImplicit false

namespace CampaignService

/-- The `Campaign` table row (src/main.py, class Campaign).
`campaign_id` is the auto-assigned primary key; in the embedding a row in
the store always has its key assigned, so it is a plain `Nat`.
`due_date` is the optional timestamp column, `created_at` the creation
timestamp column. -/
structure Campaign where
  campaign_id : Nat
  name : String
  due_date : Option Nat
  created_at : Nat
deriving Repr, DecidableEq

/-- The database state: the rows of the single `campaign` table in
storage order, plus the next primary key the engine will assign. -/
structure DB where
  rows : List Campaign
  nextId : Nat
deriving Repr, DecidableEq

/-- Well-formedness of the storage engine state: every assigned primary
key is below the auto-increment counter, and primary keys are unique
(the PRIMARY KEY constraint of the table). -/
def DB.wf (db : DB) : Prop :=
  (∀ c ∈ db.rows, c.campaign_id < db.nextId) ∧
    (db.rows.map (fun c => c.campaign_id)).Nodup

instance (db : DB) : Decidable db.wf := by
  unfold DB.wf; infer_instance

/-- The generic response envelope (src/main.py, class ApiResponse):
a single `data` field wrapping the payload. -/
structure ApiResponse (T : Type) where
  data : T
deriving Repr, DecidableEq

/-- An HTTPException as raised by the handlers: status code and detail. -/
structure HTTPError where
  status_code : Nat
  detail : String
deriving Repr, DecidableEq

/-- The one error the handlers raise:
HTTPException(status_code=404, detail="Campaign not found"). -/
def notFound : HTTPError := ⟨404, "Campaign not found"⟩

/-- The request body of POST /campaigns (src/main.py, class
CampaignCreate): `name : str` (required), `due_date : datetime | None`
(defaults to None). -/
structure CampaignCreate where
  name : String
  due_date : Option Nat
deriving Repr, DecidableEq

/-- The request body of PUT /campaigns/\x7bid\x7d (src/main.py, class
CampaignUpdate): both fields optional, defaulting to None. -/
structure CampaignUpdate where
  name : Option String
  due_date : Option Nat
deriving Repr, DecidableEq

/-- A raw JSON create payload before pydantic validation.  The outer
`Option` records whether the field is present in the JSON object, the
inner `Option` whether its value is null. -/
structure RawCreate where
  name : Option (Option String)
  due_date : Option (Option Nat)
deriving Repr, DecidableEq

/-- A raw JSON update payload before pydantic validation, with the same
presence/null encoding as `RawCreate`. -/
structure RawUpdate where
  name : Option (Option String)
  due_date : Option (Option Nat)
deriving Repr, DecidableEq

/-- Pydantic validation of `CampaignCreate` as declared at
src/main.py:27-29: `name : str` is required, so a payload whose `name`
field is absent or null is rejected with a 422 validation error; any
string value (the empty string included, since no min_length constraint
is declared) is accepted.  `due_date : datetime | None = None` accepts
an absent field, a null, or a timestamp. -/
def validateCreate (r : RawCreate) : Except HTTPError CampaignCreate :=
  match r.name with
  | some (some s) => Except.ok ⟨s, r.due_date.join⟩
  | _ => Except.error ⟨422, "Field required"⟩

/-- Pydantic validation of `CampaignUpdate` as declared at
src/main.py:32-34: both fields are `T | None = None`, so an absent field
and an explicit null both parse to None, and any value parses to
itself. -/
def parseUpdate (r : RawUpdate) : CampaignUpdate :=
  ⟨r.name.join, r.due_date.join⟩

/-- session.get(Campaign, id): primary-key lookup in the table. -/
def getCampaign (db : DB) (id : Nat) : Option Campaign :=
  db.rows.find? (fun r => r.campaign_id == id)

/-- GET /campaigns (src/main.py, read_campaigns): select all rows and
wrap them in the envelope; the database is not modified. -/
def read_campaigns (db : DB) : ApiResponse (List Campaign) × DB :=
  (⟨db.rows⟩, db)

/-- GET /campaigns/\x7bid\x7d (src/main.py, read_campaign): primary-key
lookup; 404 when no row matches, otherwise the row in an envelope. -/
def read_campaign (db : DB) (id : Nat) :
    Except HTTPError (ApiResponse Campaign) × DB :=
  match getCampaign db id with
  | none => (Except.error notFound, db)
  | some c => (Except.ok ⟨c⟩, db)

/-- POST /campaigns (src/main.py, create_campaign): build a new row from
the validated body with created_at = datetime.now(), insert it (the
engine assigns the next primary key), and return the persisted row. -/
def create_campaign (db : DB) (body : CampaignCreate) (now : Nat) :
    ApiResponse Campaign × DB :=
  let new_campaign : Campaign :=
    ⟨db.nextId, body.name, body.due_date, now⟩
  (⟨new_campaign⟩, ⟨db.rows ++ [new_campaign], db.nextId + 1⟩)

/-- PUT /campaigns/\x7bid\x7d (src/main.py, update_campaign):
primary-key lookup, 404 when absent; otherwise each body field that is
not None overwrites the stored field (the two "is not None" checks at
src/main.py:142-146, rendered as `Option.getD` and `Option.or`), the row
is persisted, and the updated row is returned. -/
def update_campaign (db : DB) (id : Nat) (body : CampaignUpdate) :
    Except HTTPError (ApiResponse Campaign) × DB :=
  match getCampaign db id with
  | none => (Except.error notFound, db)
  | some campaign =>
    let campaign2 : Campaign :=
      { campaign with
        name := body.name.getD campaign.name
        due_date := body.due_date.or campaign.due_date }
    (Except.ok ⟨campaign2⟩,
      { db with
        rows := db.rows.map
          (fun r => if r.campaign_id == id then campaign2 else r) })

/-- DELETE /campaigns/\x7bid\x7d (src/main.py, delete_campaign):
primary-key lookup, 404 when absent; otherwise the found row object is
removed from the table and a success message is returned. -/
def delete_campaign (db : DB) (id : Nat) :
    Except HTTPError (ApiResponse String) × DB :=
  match getCampaign db id with
  | none => (Except.error notFound, db)
  | some _ =>
    (Except.ok ⟨"Campaign deleted successfully"⟩,
      { db with rows := db.rows.eraseP (fun r => r.campaign_id == id) })

/-- The lifespan startup hook (src/main.py, lifespan): after creating
the schema, if select(Campaign).first() yields no row (the table is
empty), add the two sample rows "Campaign tesla" and "Campaign apple",
each with due_date = datetime.now() and created_at from the default
factory; otherwise do nothing.  The four instants observed by the two
rows are abstracted as the parameters `dueT createdT dueA createdA`. -/
def lifespan (db : DB) (dueT createdT dueA createdA : Nat) : DB :=
  if db.rows.isEmpty then
    { rows := db.rows ++
        [⟨db.nextId, "Campaign tesla", some dueT, createdT⟩,
         ⟨db.nextId + 1, "Campaign apple", some dueA, createdA⟩],
      nextId := db.nextId + 2 }
  else db

/-- A sample database state used by witnesses: the two seeded rows. -/
def exDB : DB :=
  ⟨[⟨1, "Campaign tesla", some 3, 0⟩, ⟨2, "Campaign apple", some 4, 1⟩], 3⟩

theorem find?_map_replace (id : Nat) (c2 : Campaign)
    (h2 : c2.campaign_id = id) :
    ∀ (l : List Campaign) (c : Campaign),
      l.find? (fun r => r.campaign_id == id) = some c →
      (l.map (fun r => if r.campaign_id == id then c2 else r)).find?
          (fun r => r.campaign_id == id) = some c2 := by
  intro l
  induction l with
  | nil => intro c h; simp at h
  | cons a t ih =>
    intro c h
    rw [List.map_cons]
    cases ha : (a.campaign_id == id) with
    | true =>
      have hc2 : (c2.campaign_id == id) = true := by simp [h2]
      simp [List.find?_cons, hc2]
    | false =>
      simp only [List.find?_cons, ha] at h
      simp only [Bool.false_eq_true, if_false, List.find?_cons, ha]
      exact ih c h

theorem campaign_id_of_find? {l : List Campaign} {id : Nat} {c : Campaign}
    (h : l.find? (fun r => r.campaign_id == id) = some c) :
    c.campaign_id = id := by
  have := List.find?_some h
  simpa using this

theorem find?_eraseP_none (id : Nat) :
    ∀ (l : List Campaign),
      (l.map (fun r => r.campaign_id)).Nodup →
      ∀ (c : Campaign),
        l.find? (fun r => r.campaign_id == id) = some c →
        (l.eraseP (fun r => r.campaign_id == id)).find?
            (fun r => r.campaign_id == id) = none := by
  intro l
  induction l with
  | nil => intro _ c h; simp at h
  | cons a t ih =>
    intro hnd c h
    rw [List.map_cons, List.nodup_cons] at hnd
    cases ha : (a.campaign_id == id) with
    | true =>
      have haid : a.campaign_id = id := by simpa using ha
      rw [List.eraseP_cons_of_pos]
      · rw [List.find?_eq_none]
        intro x hx hpx
        have hxid : x.campaign_id = id := by simpa using hpx
        exact hnd.1 (List.mem_map.mpr ⟨x, hx, hxid.trans haid.symm⟩)
      · exact ha
    | false =>
      rw [List.eraseP_cons_of_neg (by simp [ha])]
      simp only [List.find?_cons, ha] at h ⊢
      exact ih hnd.2 c h

end CampaignService

namespace CampaignService

/-- C1: updating an existing campaign overwrites exactly the fields that
are present and non-null in the payload (`name`, `due_date`), keeps the
absent ones, returns the updated row, and both the stored and the
returned row agree; moreover a raw payload carrying an explicit null for
due_date parses and updates identically to one omitting the field. -/
theorem C1_update_partial_semantics (db : DB) (id : Nat)
    (body : CampaignUpdate) (c : Campaign) (h : getCampaign db id = some c) :
    (update_campaign db id body).1 =
      Except.ok ⟨⟨c.campaign_id, body.name.getD c.name,
        Option.or body.due_date c.due_date, c.created_at⟩⟩ ∧
    getCampaign (update_campaign db id body).2 id =
      some ⟨c.campaign_id, body.name.getD c.name,
        Option.or body.due_date c.due_date, c.created_at⟩ ∧
    (∀ r : RawUpdate,
      update_campaign db id (parseUpdate { r with due_date := some none }) =
        update_campaign db id (parseUpdate { r with due_date := none })) := by
  have hid : c.campaign_id = id := campaign_id_of_find? h
  refine ⟨?_, ?_, ?_⟩
  · unfold update_campaign
    rw [h]
  · unfold update_campaign
    rw [h]
    exact find?_map_replace id
      ⟨c.campaign_id, body.name.getD c.name,
        Option.or body.due_date c.due_date, c.created_at⟩
      hid db.rows c h
  · intro r
    rfl

theorem C1_update_partial_semantics_witness :
    (update_campaign exDB 1 ⟨some "X", none⟩).1 =
      Except.ok ⟨⟨1, "X", some 3, 0⟩⟩ :=
  (C1_update_partial_semantics exDB 1 ⟨some "X", none⟩
    ⟨1, "Campaign tesla", some 3, 0⟩ (by decide)).1

/-- C3: a successful update never changes the row's `campaign_id` or
`created_at`; an update supplying only `name` leaves `due_date`
unchanged, one supplying only `due_date` leaves `name` unchanged, and
every row whose id differs from the addressed one is untouched. -/
theorem C3_update_frame (db : DB) (id : Nat) (body : CampaignUpdate)
    (c : Campaign) (h : getCampaign db id = some c) :
    ∃ c2 : Campaign,
      (update_campaign db id body).1 = Except.ok ⟨c2⟩ ∧
      c2.campaign_id = c.campaign_id ∧
      c2.created_at = c.created_at ∧
      (body.due_date = none → c2.due_date = c.due_date) ∧
      (body.name = none → c2.name = c.name) ∧
      (∀ r : Campaign, r.campaign_id ≠ id →
        (r ∈ (update_campaign db id body).2.rows ↔ r ∈ db.rows)) := by
  have hid : c.campaign_id = id := campaign_id_of_find? h
  refine ⟨⟨c.campaign_id, body.name.getD c.name,
    Option.or body.due_date c.due_date, c.created_at⟩, ?_, rfl, rfl, ?_, ?_, ?_⟩
  · unfold update_campaign
    rw [h]
  · intro hd; rw [hd]; rfl
  · intro hn; rw [hn]; rfl
  · intro r hr
    unfold update_campaign
    rw [h]
    simp only [List.mem_map]
    constructor
    · rintro ⟨a, ha, hfa⟩
      by_cases hmatch : (a.campaign_id == id) = true
      · rw [if_pos hmatch] at hfa
        exfalso
        apply hr
        rw [← hfa]
        simpa using hid
      · rw [if_neg hmatch] at hfa
        rw [← hfa]; exact ha
    · intro hmem
      refine ⟨r, hmem, ?_⟩
      rw [if_neg]
      simpa using hr

theorem C3_update_frame_witness :
    ∃ c2 : Campaign,
      (update_campaign exDB 2 ⟨none, some 9⟩).1 = Except.ok ⟨c2⟩ ∧
      c2.campaign_id = 2 ∧ c2.created_at = 1 ∧ c2.name = "Campaign apple" := by
  obtain ⟨c2, h1, h2, h3, _, h5, _⟩ :=
    C3_update_frame exDB 2 ⟨none, some 9⟩
      ⟨2, "Campaign apple", some 4, 1⟩ (by decide)
  exact ⟨c2, h1, h2, h3, h5 rfl⟩

/-- C10: an update payload carrying `name = ""` passes pydantic parsing
(the empty string is not None), passes the handler's "is not None"
check, and sets the stored name to the empty string, so the update
operation does not preserve non-emptiness of stored names. -/
theorem C10_update_empty_name (db : DB) (id : Nat) (c : Campaign)
    (h : getCampaign db id = some c) :
    parseUpdate ⟨some (some ""), none⟩ = ⟨some "", none⟩ ∧
    (update_campaign db id ⟨some "", none⟩).1 =
      Except.ok ⟨⟨c.campaign_id, "", c.due_date, c.created_at⟩⟩ ∧
    getCampaign (update_campaign db id ⟨some "", none⟩).2 id =
      some ⟨c.campaign_id, "", c.due_date, c.created_at⟩ := by
  have hid : c.campaign_id = id := campaign_id_of_find? h
  refine ⟨rfl, ?_, ?_⟩
  · unfold update_campaign
    rw [h]
    rfl
  · unfold update_campaign
    rw [h]
    exact find?_map_replace id
      ⟨c.campaign_id, "", c.due_date, c.created_at⟩ hid db.rows c h

/-- C2: for an identifier with no matching row, get-one, update and
delete all fail with the 404 "Campaign not found" error and leave the
database unchanged; for an identifier with a matching row, none of them
returns that error. -/
theorem C2_not_found (db : DB) (id : Nat) :
    (getCampaign db id = none →
      read_campaign db id = (Except.error notFound, db) ∧
      (∀ body, update_campaign db id body = (Except.error notFound, db)) ∧
      delete_campaign db id = (Except.error notFound, db) ∧
      notFound.status_code = 404 ∧
      notFound.detail = "Campaign not found") ∧
    (∀ c, getCampaign db id = some c →
      (read_campaign db id).1 ≠ Except.error notFound ∧
      (∀ body, (update_campaign db id body).1 ≠ Except.error notFound) ∧
      (delete_campaign db id).1 ≠ Except.error notFound) := by
  constructor
  · intro h
    refine ⟨?_, fun body => ?_, ?_, rfl, rfl⟩
    · unfold read_campaign; rw [h]
    · unfold update_campaign; rw [h]
    · unfold delete_campaign; rw [h]
  · intro c h
    refine ⟨?_, fun body => ?_, ?_⟩
    · unfold read_campaign; rw [h]; simp
    · unfold update_campaign; rw [h]; simp
    · unfold delete_campaign; rw [h]; simp

theorem C2_not_found_witness :
    read_campaign exDB 999999 = (Except.error notFound, exDB) ∧
    (read_campaign exDB 1).1 ≠ Except.error notFound := by
  refine ⟨((C2_not_found exDB 999999).1 (by decide)).1, ?_⟩
  exact ((C2_not_found exDB 1).2 ⟨1, "Campaign tesla", some 3, 0⟩ (by decide)).1

/-- C4: create inserts exactly one new row carrying the request's name
and due_date, with created_at set to the current instant and a fresh id
distinct from every existing row; the full persisted row is returned in
the envelope and can be fetched back; well-formedness is preserved; and
a second create with the same name also succeeds, yielding a second row
with a distinct id. -/
theorem C4_create (db : DB) (body : CampaignCreate) (now now2 : Nat)
    (hwf : db.wf) :
    (create_campaign db body now).1.data.name = body.name ∧
    (create_campaign db body now).1.data.due_date = body.due_date ∧
    (create_campaign db body now).1.data.created_at = now ∧
    (create_campaign db body now).2.rows =
      db.rows ++ [(create_campaign db body now).1.data] ∧
    (∀ r ∈ db.rows,
      r.campaign_id ≠ (create_campaign db body now).1.data.campaign_id) ∧
    getCampaign (create_campaign db body now).2
        (create_campaign db body now).1.data.campaign_id =
      some (create_campaign db body now).1.data ∧
    (create_campaign db body now).2.wf ∧
    (create_campaign (create_campaign db body now).2 body now2).1.data.name
      = body.name ∧
    (create_campaign (create_campaign db body now).2 body now2).1.data.campaign_id
      ≠ (create_campaign db body now).1.data.campaign_id := by
  refine ⟨rfl, rfl, rfl, rfl, ?_, ?_, ?_, rfl, ?_⟩
  · intro r hr
    have := hwf.1 r hr
    show r.campaign_id ≠ db.nextId
    omega
  · show (db.rows ++ [(⟨db.nextId, body.name, body.due_date, now⟩ : Campaign)]).find?
        (fun r : Campaign => r.campaign_id == db.nextId) =
      some (⟨db.nextId, body.name, body.due_date, now⟩ : Campaign)
    rw [List.find?_append]
    have h1 : db.rows.find? (fun r => r.campaign_id == db.nextId) = none := by
      rw [List.find?_eq_none]
      intro x hx
      have := hwf.1 x hx
      simp only [beq_iff_eq]
      omega
    rw [h1, Option.none_or]
    simp [List.find?_cons]
  · show DB.wf ⟨db.rows ++ [⟨db.nextId, body.name, body.due_date, now⟩],
      db.nextId + 1⟩
    constructor
    · intro x hx
      show x.campaign_id < db.nextId + 1
      rcases List.mem_append.mp hx with h1 | h1
      · have := hwf.1 x h1
        omega
      · have hx2 : x = ⟨db.nextId, body.name, body.due_date, now⟩ := by
          simpa using h1
        rw [hx2]
        show db.nextId < db.nextId + 1
        omega
    · rw [List.map_append, List.nodup_append]
      refine ⟨hwf.2, by simp, ?_⟩
      intro a ha hb
      simp only [List.map_cons, List.map_nil, List.mem_singleton] at hb
      rw [List.mem_map] at ha
      obtain ⟨x, hx, hxa⟩ := ha
      have := hwf.1 x hx
      omega
  · show db.nextId + 1 ≠ db.nextId
    omega

theorem C4_create_witness :
    (create_campaign exDB ⟨"Z", some 9⟩ 5).1.data.name = "Z" ∧
    getCampaign (create_campaign exDB ⟨"Z", some 9⟩ 5).2
        (create_campaign exDB ⟨"Z", some 9⟩ 5).1.data.campaign_id =
      some (create_campaign exDB ⟨"Z", some 9⟩ 5).1.data := by
  have h := C4_create exDB ⟨"Z", some 9⟩ 5 6 (by decide)
  exact ⟨h.1, h.2.2.2.2.2.1⟩

/-- C5 counterexample: a create payload whose name is present and equal
to the empty string passes pydantic validation of CampaignCreate (no
non-emptiness constraint is declared on `name : str`), and the create
handler persists a row whose name is the empty string. -/
theorem C5_counterexample :
    validateCreate ⟨some (some ""), none⟩ = Except.ok ⟨"", none⟩ ∧
    (create_campaign ⟨[], 1⟩ ⟨"", none⟩ 5).2.rows = [⟨1, "", none, 5⟩] :=
  ⟨rfl, rfl⟩

/-- C5 (amended): `name` is required — a create payload whose name field
is absent or null is rejected with a 422 validation error before the
create logic runs, and one carrying any string value is accepted — but
the empty string is not rejected: validation accepts it and create
persists a row with an empty name. -/
theorem C5_name_required (r : RawCreate) (db : DB) (d : Option Nat)
    (now : Nat) :
    (r.name = none ∨ r.name = some none →
      validateCreate r = Except.error ⟨422, "Field required"⟩) ∧
    (∀ s, r.name = some (some s) →
      validateCreate r = Except.ok ⟨s, r.due_date.join⟩) ∧
    validateCreate ⟨some (some ""), r.due_date⟩ =
      Except.ok ⟨"", r.due_date.join⟩ ∧
    (create_campaign db ⟨"", d⟩ now).1.data.name = "" ∧
    (create_campaign db ⟨"", d⟩ now).1.data ∈
      (create_campaign db ⟨"", d⟩ now).2.rows := by
  refine ⟨?_, ?_, rfl, rfl, ?_⟩
  · intro hr
    rcases hr with h1 | h1 <;> (unfold validateCreate; rw [h1])
  · intro s hs
    unfold validateCreate
    rw [hs]
  · show _ ∈ db.rows ++ [(create_campaign db ⟨"", d⟩ now).1.data]
    exact List.mem_append_right _ (List.mem_singleton.mpr rfl)

theorem C5_name_required_witness :
    validateCreate ⟨none, none⟩ = Except.error ⟨422, "Field required"⟩ ∧
    validateCreate ⟨some (some "x"), none⟩ = Except.ok ⟨"x", none⟩ := by
  refine ⟨(C5_name_required ⟨none, none⟩ exDB none 0).1 (Or.inl rfl), ?_⟩
  exact (C5_name_required ⟨some (some "x"), none⟩ exDB none 0).2.1 "x" rfl

/-- C6: deleting an existing campaign returns the success message,
removes exactly that row (the row count drops by one, the deleted row no
longer appears in list results, and every row with a different id is
kept), and a subsequent get or delete of the same identifier yields the
404 error. -/
theorem C6_delete (db : DB) (id : Nat) (c : Campaign)
    (hwf : db.wf) (h : getCampaign db id = some c) :
    (delete_campaign db id).1 =
      Except.ok ⟨"Campaign deleted successfully"⟩ ∧
    getCampaign (delete_campaign db id).2 id = none ∧
    (read_campaign (delete_campaign db id).2 id).1 = Except.error notFound ∧
    (delete_campaign (delete_campaign db id).2 id).1 =
      Except.error notFound ∧
    c ∉ (read_campaigns (delete_campaign db id).2).1.data ∧
    (∀ r ∈ db.rows, r.campaign_id ≠ id →
      r ∈ (delete_campaign db id).2.rows) ∧
    (∀ r ∈ (delete_campaign db id).2.rows, r ∈ db.rows) ∧
    (delete_campaign db id).2.rows.length + 1 = db.rows.length := by
  have hcmem : c ∈ db.rows := List.mem_of_find?_eq_some h
  have herase : (db.rows.eraseP (fun r => r.campaign_id == id)).find?
      (fun r => r.campaign_id == id) = none :=
    find?_eraseP_none id db.rows hwf.2 c h
  have hnone : getCampaign (delete_campaign db id).2 id = none := by
    unfold delete_campaign
    rw [h]
    exact herase
  refine ⟨?_, hnone, ?_, ?_, ?_, ?_, ?_, ?_⟩
  · unfold delete_campaign; rw [h]
  · unfold read_campaign; rw [hnone]
  · have hgen : ∀ db2 : DB, getCampaign db2 id = none →
        (delete_campaign db2 id).1 = Except.error notFound := by
      intro db2 h2
      unfold delete_campaign
      rw [h2]
    exact hgen _ hnone
  · intro hc
    have hc2 : c ∈ (delete_campaign db id).2.rows := hc
    unfold delete_campaign at hc2
    rw [h] at hc2
    have hc3 : c ∈ db.rows.eraseP (fun r => r.campaign_id == id) := hc2
    exact absurd (List.find?_some h) (List.find?_eq_none.mp herase c hc3)
  · intro r hr hrid
    unfold delete_campaign
    rw [h]
    exact (List.mem_eraseP_of_neg (by simpa using hrid)).mpr hr
  · intro r hr
    have hr2 : r ∈ (delete_campaign db id).2.rows := hr
    unfold delete_campaign at hr2
    rw [h] at hr2
    have hr3 : r ∈ db.rows.eraseP (fun x => x.campaign_id == id) := hr2
    exact List.eraseP_subset _ hr3
  · unfold delete_campaign
    rw [h]
    show (db.rows.eraseP (fun r => r.campaign_id == id)).length + 1 =
      db.rows.length
    rw [List.length_eraseP_of_mem hcmem (List.find?_some h)]
    have hpos : 0 < db.rows.length := List.length_pos.mpr
      (List.ne_nil_of_mem hcmem)
    omega

theorem C6_delete_witness :
    (delete_campaign exDB 1).1 =
      Except.ok ⟨"Campaign deleted successfully"⟩ ∧
    getCampaign (delete_campaign exDB 1).2 1 = none := by
  have h := C6_delete exDB 1 ⟨1, "Campaign tesla", some 3, 0⟩
    (by decide) (by decide)
  exact ⟨h.1, h.2.1⟩

theorem C10_update_empty_name_witness :
    getCampaign (update_campaign exDB 1 ⟨some "", none⟩).2 1 =
      some ⟨1, "", some 3, 0⟩ :=
  (C10_update_empty_name exDB 1 ⟨1, "Campaign tesla", some 3, 0⟩
    (by decide)).2.2

/-- C7: the startup hook seeds the table if and only if it is empty:
on an empty table it inserts exactly the two rows "Campaign tesla" and
"Campaign apple" (in that order, with fresh consecutive ids), and on a
nonempty table it changes nothing, so startup is idempotent once data
exists. -/
theorem C7_startup_seed (db : DB) (dT cT dA cA : Nat) :
    (db.rows = [] →
      (lifespan db dT cT dA cA).rows =
        [⟨db.nextId, "Campaign tesla", some dT, cT⟩,
         ⟨db.nextId + 1, "Campaign apple", some dA, cA⟩]) ∧
    (db.rows ≠ [] → lifespan db dT cT dA cA = db) := by
  constructor
  · intro h
    simp [lifespan, h]
  · intro h
    have hne : db.rows.isEmpty = false := List.isEmpty_eq_false.mpr h
    simp [lifespan, hne]

theorem C7_startup_seed_witness :
    (lifespan ⟨[], 1⟩ 0 0 1 1).rows =
      [⟨1, "Campaign tesla", some 0, 0⟩, ⟨2, "Campaign apple", some 1, 1⟩] ∧
    lifespan exDB 0 0 1 1 = exDB :=
  ⟨(C7_startup_seed ⟨[], 1⟩ 0 0 1 1).1 rfl,
   (C7_startup_seed exDB 0 0 1 1).2 (by decide)⟩

/-- C8 counterexample: the claim that after any create or delete the
seed rows are never reinserted is false.  Concrete trace: seed an empty
database (two rows), create a third campaign, delete all three rows,
then restart; the startup hook finds the table empty and inserts the two
sample rows again. -/
theorem C8_counterexample :
    (delete_campaign
        (delete_campaign
          (delete_campaign
            (create_campaign (lifespan ⟨[], 1⟩ 0 0 1 1) ⟨"X", none⟩ 2).2
            1).2
          2).2
        3).2.rows = [] ∧
    (lifespan
        (delete_campaign
          (delete_campaign
            (delete_campaign
              (create_campaign (lifespan ⟨[], 1⟩ 0 0 1 1) ⟨"X", none⟩ 2).2
              1).2
            2).2
          3).2
        7 7 8 8).rows.map (fun c => c.name) =
      ["Campaign tesla", "Campaign apple"] := by
  decide

/-- C8 (amended): the startup hook reseeds exactly when the table is
empty at startup, so after a create, and after a delete that leaves at
least one row, a restart does not reinsert the sample rows; the seed can
only be reinserted when every row has been deleted before the restart. -/
theorem C8_no_reseed_while_nonempty (db : DB) (body : CampaignCreate)
    (now dT cT dA cA : Nat) :
    lifespan (create_campaign db body now).2 dT cT dA cA =
      (create_campaign db body now).2 ∧
    (∀ id, (delete_campaign db id).2.rows ≠ [] →
      lifespan (delete_campaign db id).2 dT cT dA cA =
        (delete_campaign db id).2) := by
  constructor
  · have hne : (create_campaign db body now).2.rows.isEmpty = false := by
      simp [create_campaign]
    simp [lifespan, hne]
  · intro id h
    have hne : (delete_campaign db id).2.rows.isEmpty = false :=
      List.isEmpty_eq_false.mpr h
    simp [lifespan, hne]

theorem C8_no_reseed_while_nonempty_witness :
    lifespan (delete_campaign exDB 1).2 0 0 1 1 =
      (delete_campaign exDB 1).2 :=
  (C8_no_reseed_while_nonempty exDB ⟨"x", none⟩ 0 0 0 1 1).2 1 (by decide)

/-- C9: the list operation returns every stored row in storage order
wrapped in the envelope, leaves the database unchanged, and two
consecutive calls with no intervening write return the same rows. -/
theorem C9_list_readonly (db : DB) :
    (read_campaigns db).1.data = db.rows ∧
    (read_campaigns db).2 = db ∧
    (read_campaigns (read_campaigns db).2).1 = (read_campaigns db).1 :=
  ⟨rfl, rfl, rfl⟩

end CampaignService
